import Mathlib

/-!
# PMW3360 optical-flow sensor driver (VestibularH1 firmware)

A shallow embedding of `Firmware/VestibularH1/PMW3360.c`.  The driver talks to
two sensors through two SPI channels (`flow0`, `flow1`).  Every call that the C
code makes to a collaborator (SPI start/stop/transmit/receive, the busy-wait
delays, the firmware upload) is recorded as an `Event` appended to a trace, so
that the order of the bus operations and of the waits can be stated exactly.

Bytes are natural numbers; a narrowing store into a `uint8_t` is `% 256`.
-/

namespace VestibularH1

/-- The two SPI channels of the board. -/
inductive Flow where
  | flow0
  | flow1
  deriving DecidableEq, Repr

/-- One observable collaborator call made by the driver. -/
inductive Event where
  /-- Call of `spi_start_flowN()`: chip select asserted. -/
  | start (c : Flow)
  /-- Call of `spi_stop_flowN()`: chip select released. -/
  | stop (c : Flow)
  /-- Call of `spi_tx_byte_flowN(b)`: one byte shifted out. -/
  | tx (c : Flow) (b : Nat)
  /-- Call of `spi_rx_byte_flowN()` that returned `b`: one byte shifted in. -/
  | rx (c : Flow) (b : Nat)
  /-- Call of `_delay_us(n)`. -/
  | delay_us (n : Nat)
  /-- Call of `_delay_ms(n)`. -/
  | delay_ms (n : Nat)
  /-- Call of `upload_the_firmware_pmw3360_N()`. -/
  | upload (c : Flow)
  deriving DecidableEq, Repr

/-- The history of collaborator calls, oldest first. -/
abbrev Trace := List Event

/-- The environment: the value the sensor on channel `c` shifts in, as a
function of everything that has happened so far.  Only its low 8 bits are
seen by the driver. -/
abbrev Bus := Flow → Trace → Nat

/-! ## Register map (`PMW3360.h`) -/

def REG_Product_ID : Nat := 0x00
def REG_Motion : Nat := 0x02
def REG_Delta_X_L : Nat := 0x03
def REG_Delta_X_H : Nat := 0x04
def REG_Delta_Y_L : Nat := 0x05
def REG_Delta_Y_H : Nat := 0x06
def REG_SQUAL : Nat := 0x07
def REG_Power_Up_Reset : Nat := 0x3A
def REG_Inverse_Product_ID : Nat := 0x3F

/-! ## Collaborators (`spi.h`, `util/delay.h`) -/

/-- Modelled from the spec: `spi_start_flow0` of `spi.h` (not part of the
sources) is the bus-select primitive of channel 0. -/
def spi_start_flow0 (t : Trace) : Trace := t ++ [Event.start Flow.flow0]

/-- Modelled from the spec: `spi_start_flow1` of `spi.h`, the bus-select
primitive of channel 1. -/
def spi_start_flow1 (t : Trace) : Trace := t ++ [Event.start Flow.flow1]

/-- Modelled from the spec: `spi_stop_flow0` of `spi.h`, the bus-deselect
primitive of channel 0. -/
def spi_stop_flow0 (t : Trace) : Trace := t ++ [Event.stop Flow.flow0]

/-- Modelled from the spec: `spi_stop_flow1` of `spi.h`, the bus-deselect
primitive of channel 1. -/
def spi_stop_flow1 (t : Trace) : Trace := t ++ [Event.stop Flow.flow1]

/-- Modelled from the spec: `spi_tx_byte_flow0` of `spi.h` shifts one byte out
on channel 0. -/
def spi_tx_byte_flow0 (b : Nat) (t : Trace) : Trace := t ++ [Event.tx Flow.flow0 b]

/-- Modelled from the spec: `spi_tx_byte_flow1` of `spi.h` shifts one byte out
on channel 1. -/
def spi_tx_byte_flow1 (b : Nat) (t : Trace) : Trace := t ++ [Event.tx Flow.flow1 b]

/-- Modelled from the spec: `spi_rx_byte_flow0` of `spi.h` shifts one byte in
on channel 0; it always returns a byte. -/
def spi_rx_byte_flow0 (bus : Bus) (t : Trace) : Nat × Trace :=
  (bus Flow.flow0 t % 256, t ++ [Event.rx Flow.flow0 (bus Flow.flow0 t % 256)])

/-- Modelled from the spec: `spi_rx_byte_flow1` of `spi.h` shifts one byte in
on channel 1; it always returns a byte. -/
def spi_rx_byte_flow1 (bus : Bus) (t : Trace) : Nat × Trace :=
  (bus Flow.flow1 t % 256, t ++ [Event.rx Flow.flow1 (bus Flow.flow1 t % 256)])

/-- Modelled from the spec: `_delay_us` of `util/delay.h`, a blocking wait of
`n` microseconds. -/
def _delay_us (n : Nat) (t : Trace) : Trace := t ++ [Event.delay_us n]

/-- Modelled from the spec: `_delay_ms` of `util/delay.h`, a blocking wait of
`n` milliseconds. -/
def _delay_ms (n : Nat) (t : Trace) : Trace := t ++ [Event.delay_ms n]

/-! ## Register access (`PMW3360.c`, lines 67-135) -/

/-- Source function `uint8_t optical_tracking_read_register_pwm3360_0(uint8_t address)`.
`address &= ~0x80` keeps the low seven bits. -/
def optical_tracking_read_register_pwm3360_0 (bus : Bus) (address : Nat) (t : Trace) :
    Nat × Trace :=
  let address := (address &&& 0x7F) % 256
  let t := spi_start_flow0 t
  let t := _delay_us 1 t
  let t := _delay_us 10 t
  let t := spi_tx_byte_flow0 address t
  let t := _delay_us 100 t
  let (byte, t) := spi_rx_byte_flow0 bus t
  let t := _delay_us 1 t
  let t := spi_stop_flow0 t
  let t := _delay_us 19 t
  (byte, t)

/-- Source function `uint8_t optical_tracking_read_register_pwm3360_1(uint8_t address)`. -/
def optical_tracking_read_register_pwm3360_1 (bus : Bus) (address : Nat) (t : Trace) :
    Nat × Trace :=
  let address := (address &&& 0x7F) % 256
  let t := spi_start_flow1 t
  let t := _delay_us 1 t
  let t := _delay_us 10 t
  let t := spi_tx_byte_flow1 address t
  let t := _delay_us 100 t
  let (byte, t) := spi_rx_byte_flow1 bus t
  let t := _delay_us 1 t
  let t := spi_stop_flow1 t
  let t := _delay_us 19 t
  (byte, t)

/-- Source function `void optical_tracking_write_register_pmw3360_0(uint8_t address, uint8_t byte)`. -/
def optical_tracking_write_register_pmw3360_0 (address byte : Nat) (t : Trace) : Trace :=
  let address := (address ||| 0x80) % 256
  let t := spi_start_flow0 t
  let t := _delay_us 1 t
  let t := _delay_us 10 t
  let t := spi_tx_byte_flow0 address t
  let t := _delay_us 1 t
  let t := _delay_us 10 t
  let t := spi_tx_byte_flow0 byte t
  let t := _delay_us 20 t
  let t := spi_stop_flow0 t
  let t := _delay_us 100 t
  t

/-- Source function `void optical_tracking_write_register_pmw3360_1(uint8_t address, uint8_t byte)`. -/
def optical_tracking_write_register_pmw3360_1 (address byte : Nat) (t : Trace) : Trace :=
  let address := (address ||| 0x80) % 256
  let t := spi_start_flow1 t
  let t := _delay_us 1 t
  let t := _delay_us 10 t
  let t := spi_tx_byte_flow1 address t
  let t := _delay_us 1 t
  let t := _delay_us 10 t
  let t := spi_tx_byte_flow1 byte t
  let t := _delay_us 20 t
  let t := spi_stop_flow1 t
  let t := _delay_us 100 t
  t

/-! ## Initialisation (`PMW3360.c`, lines 12-65) -/

/-- Source function `bool optical_tracking_initialize_pwm3360_0(void)`.  Between the last
draining read and `_delay_ms(10)` the source holds only the comment
`// Upload firmware`; no call is made there. -/
def optical_tracking_initialize_pwm3360_0 (bus : Bus) (t : Trace) : Bool × Trace :=
  let t := optical_tracking_write_register_pmw3360_0 REG_Power_Up_Reset 0x5A t
  let t := _delay_ms 100 t
  let (productID, t) := optical_tracking_read_register_pwm3360_0 bus REG_Product_ID t
  let (invProductID, t) := optical_tracking_read_register_pwm3360_0 bus REG_Inverse_Product_ID t
  if productID != 0x47 || invProductID != 0xB8 then
    (false, t)
  else
    let (_, t) := optical_tracking_read_register_pwm3360_0 bus REG_Motion t
    let (_, t) := optical_tracking_read_register_pwm3360_0 bus REG_Delta_X_L t
    let (_, t) := optical_tracking_read_register_pwm3360_0 bus REG_Delta_X_H t
    let (_, t) := optical_tracking_read_register_pwm3360_0 bus REG_Delta_Y_L t
    let (_, t) := optical_tracking_read_register_pwm3360_0 bus REG_Delta_Y_H t
    let t := _delay_ms 10 t
    (true, t)

/-- Source function `bool optical_tracking_initialize_pwm3360_1(void)`. -/
def optical_tracking_initialize_pwm3360_1 (bus : Bus) (t : Trace) : Bool × Trace :=
  let t := optical_tracking_write_register_pmw3360_1 REG_Power_Up_Reset 0x5A t
  let t := _delay_ms 100 t
  let (productID, t) := optical_tracking_read_register_pwm3360_1 bus REG_Product_ID t
  let (invProductID, t) := optical_tracking_read_register_pwm3360_1 bus REG_Inverse_Product_ID t
  if productID != 0x47 || invProductID != 0xB8 then
    (false, t)
  else
    let (_, t) := optical_tracking_read_register_pwm3360_1 bus REG_Motion t
    let (_, t) := optical_tracking_read_register_pwm3360_1 bus REG_Delta_X_L t
    let (_, t) := optical_tracking_read_register_pwm3360_1 bus REG_Delta_X_H t
    let (_, t) := optical_tracking_read_register_pwm3360_1 bus REG_Delta_Y_L t
    let (_, t) := optical_tracking_read_register_pwm3360_1 bus REG_Delta_Y_H t
    let t := _delay_ms 10 t
    (true, t)

/-! ## Observations on traces -/

/-- The bytes transmitted on channel `c`, in order. -/
def txBytes (c : Flow) : Trace → List Nat
  | [] => []
  | Event.tx d b :: es => if d = c then b :: txBytes c es else txBytes c es
  | _ :: es => txBytes c es

/-- The bytes received on channel `c`, in order. -/
def rxBytes (c : Flow) : Trace → List Nat
  | [] => []
  | Event.rx d b :: es => if d = c then b :: rxBytes c es else rxBytes c es
  | _ :: es => rxBytes c es

/-- The firmware-upload calls made, by channel, in order. -/
def uploadCalls : Trace → List Flow
  | [] => []
  | Event.upload c :: es => c :: uploadCalls es
  | _ :: es => uploadCalls es

/-- Total time spent in the busy-wait delays, in microseconds. -/
def totalDelayUs : Trace → Nat
  | [] => 0
  | Event.delay_us n :: es => n + totalDelayUs es
  | Event.delay_ms n :: es => 1000 * n + totalDelayUs es
  | _ :: es => totalDelayUs es

/-- The events of one read transaction on channel `c` up to, and excluding,
the receive. -/
def readHead (c : Flow) (a : Nat) : Trace :=
  [Event.start c, Event.delay_us 1, Event.delay_us 10, Event.tx c a, Event.delay_us 100]

/-- The events of one complete read transaction on channel `c` that sends
address byte `a` and receives `b`. -/
def readEvents (c : Flow) (a b : Nat) : Trace :=
  [Event.start c, Event.delay_us 1, Event.delay_us 10, Event.tx c a, Event.delay_us 100,
   Event.rx c b, Event.delay_us 1, Event.stop c, Event.delay_us 19]

/-- The events of one complete write transaction on channel `c` that sends
address byte `a` and then value `v`. -/
def writeEvents (c : Flow) (a v : Nat) : Trace :=
  [Event.start c, Event.delay_us 1, Event.delay_us 10, Event.tx c a, Event.delay_us 1,
   Event.delay_us 10, Event.tx c v, Event.delay_us 20, Event.stop c, Event.delay_us 100]

/-- The events of `initialize` on channel `c` up to the end of the identity
check, when the two identity reads return `p` and `q`: the reset write, the
100 ms settle, the Product_ID read and the Inverse_Product_ID read. -/
def idEvents (c : Flow) (p q : Nat) : Trace :=
  writeEvents c 0xBA 0x5A ++ [Event.delay_ms 100] ++ readEvents c 0x00 p ++ readEvents c 0x3F q

/-- The history seen by the bus when `initialize` on channel `c` receives the
product ID. -/
def idHeadP (c : Flow) : Trace :=
  writeEvents c 0xBA 0x5A ++ [Event.delay_ms 100] ++ readHead c 0x00

/-- The history seen by the bus when `initialize` on channel `c` receives the
inverse product ID, the product ID read having returned `p`. -/
def idHeadQ (c : Flow) (p : Nat) : Trace :=
  writeEvents c 0xBA 0x5A ++ [Event.delay_ms 100] ++ readEvents c 0x00 p ++ readHead c 0x3F

/-- Five reads on channel `c` of Motion, Delta_X_L, Delta_X_H, Delta_Y_L and
Delta_Y_H, in that order, returning `b1` to `b5`. -/
def drainEvents (c : Flow) (b1 b2 b3 b4 b5 : Nat) : Trace :=
  readEvents c 0x02 b1 ++ readEvents c 0x03 b2 ++ readEvents c 0x04 b3 ++
    readEvents c 0x05 b4 ++ readEvents c 0x06 b5

/-- A simulated bus that answers the `k`-th receive on a channel with the
`k`-th byte of `bytes` (and `0` once the script is used up). -/
def scriptedBus (bytes : List Nat) : Bus :=
  fun c t => bytes.getD (rxBytes c t).length 0

/-- A simulated bus with two different sensors: every receive on channel 0
answers `b0`, every receive on channel 1 answers `b1`. -/
def twoSensorBus (b0 b1 : Nat) : Bus :=
  fun c _ =>
    match c with
    | Flow.flow0 => b0
    | Flow.flow1 => b1

/-! ## Sequences of driver calls and bus discipline -/

/-- One call to one of the six driver operations. -/
inductive Call where
  | initialize_0
  | initialize_1
  | read_0 (address : Nat)
  | read_1 (address : Nat)
  | write_0 (address byte : Nat)
  | write_1 (address byte : Nat)
  deriving DecidableEq, Repr

/-- The channel a call belongs to. -/
def Call.flow : Call → Flow
  | Call.initialize_0 => Flow.flow0
  | Call.initialize_1 => Flow.flow1
  | Call.read_0 _ => Flow.flow0
  | Call.read_1 _ => Flow.flow1
  | Call.write_0 _ _ => Flow.flow0
  | Call.write_1 _ _ => Flow.flow1

/-- The trace after executing one call from trace `t`. -/
def Call.run (bus : Bus) : Call → Trace → Trace
  | Call.initialize_0, t => (optical_tracking_initialize_pwm3360_0 bus t).2
  | Call.initialize_1, t => (optical_tracking_initialize_pwm3360_1 bus t).2
  | Call.read_0 a, t => (optical_tracking_read_register_pwm3360_0 bus a t).2
  | Call.read_1 a, t => (optical_tracking_read_register_pwm3360_1 bus a t).2
  | Call.write_0 a v, t => optical_tracking_write_register_pmw3360_0 a v t
  | Call.write_1 a v, t => optical_tracking_write_register_pmw3360_1 a v t

/-- The trace after executing the calls one after another, starting from `t`. -/
def runCalls (bus : Bus) : List Call → Trace → Trace
  | [], t => t
  | k :: ks, t => runCalls bus ks (Call.run bus k t)

/-- The channel of a select, deselect, transmit or receive event. -/
def Event.channel : Event → Option Flow
  | Event.start c => some c
  | Event.stop c => some c
  | Event.tx c _ => some c
  | Event.rx c _ => some c
  | _ => none

/-- Every select, deselect, transmit and receive of `es` is on channel `c`. -/
def onlyOnChannel (c : Flow) (es : Trace) : Bool :=
  es.all (fun e => e.channel == none || e.channel == some c)

/-- Run a checking automaton over a trace; `none` means a violation. -/
def runChecker {σ : Type} (step : σ → Event → Option σ) : σ → Trace → Option σ
  | s, [] => some s
  | s, e :: es =>
    match step s e with
    | none => none
    | some s' => runChecker step s' es

/-- Per-channel discipline on channel `c`; the state says whether `c` is
selected.  A select needs the channel deselected, a deselect needs it selected,
a transmit or receive needs it selected. -/
def chanStep (c : Flow) (sel : Bool) : Event → Option Bool
  | Event.start d => if d = c then (if sel then none else some true) else some sel
  | Event.stop d => if d = c then (if sel then some false else none) else some sel
  | Event.tx d _ => if d = c then (if sel then some sel else none) else some sel
  | Event.rx d _ => if d = c then (if sel then some sel else none) else some sel
  | _ => some sel

/-- On channel `c`, selects and deselects strictly alternate starting with a
select, every transmit and receive happens while selected, and every select
has been closed by a deselect at the end. -/
def alternates (c : Flow) (t : Trace) : Bool :=
  runChecker (chanStep c) false t == some false

/-- The other channel. -/
def Flow.other : Flow → Flow
  | Flow.flow0 => Flow.flow1
  | Flow.flow1 => Flow.flow0

/-- Cross-channel discipline; the state is the channel that is selected, if
any.  A select, deselect, transmit or receive of channel `d` is a violation
while the other channel is selected. -/
def interStep (sel : Option Flow) (e : Event) : Option (Option Flow) :=
  match e.channel with
  | none => some sel
  | some d =>
    if sel = some d.other then none
    else
      match e with
      | Event.start _ => some (some d)
      | Event.stop _ => some none
      | _ => some sel

/-- No bus event of one channel occurs while the other channel is selected. -/
def noInterleave (t : Trace) : Bool :=
  (runChecker interStep none t).isSome

/-- A block of events that is a sequence of complete transactions on one
channel: it leaves both checking automata idle and stays on its channel. -/
def closedOn (c : Flow) (es : Trace) : Prop :=
  (∀ d, runChecker (chanStep d) false es = some false) ∧
  runChecker interStep none es = some none ∧
  onlyOnChannel c es = true

/-! ## Motion records (`MotionHeader.h`) and delta assembly -/

/-- Record `struct Motion` of `MotionHeader.h`. -/
structure Motion where
  isMotion : Nat
  isOnSurface : Nat
  deltaA : Int
  deltaB : Int
  Squal : Nat
  deriving DecidableEq, Repr

/-- The value of a 16-bit pattern stored into an `int16_t`. -/
def toInt16 (w : Nat) : Int :=
  if w % 65536 < 32768 then Int.ofNat (w % 65536) else Int.ofNat (w % 65536) - 65536

/-- Modelled from the spec: the body of
`optical_tracking_read_motion_optimized_pmw3360` is not part of the sources;
the spec assembles a delta from its low and high byte as `(H<<8)|L`, read as
a two's-complement 16-bit number. -/
def assembleDelta (l h : Nat) : Int := toInt16 ((h <<< 8) ||| l)

/-- Modelled from the spec: one sample slot of the acquisition pipeline
(`optical_tracking_read_motion_optimized_pmw3360`, declared in `PMW3360.h`,
body not part of the sources) on channel 0: read Motion, Delta_X_L, Delta_X_H,
Delta_Y_L, Delta_Y_H, SQUAL in that order and fill one `Motion` record.  The
motion flag is bit 7 of the status byte; the spec does not name the bit that
reports "lifted", so its mask is a parameter. -/
def acquire_sample_0 (bus : Bus) (liftMask : Nat) (t : Trace) : Motion × Trace :=
  let (status, t) := optical_tracking_read_register_pwm3360_0 bus REG_Motion t
  let (xl, t) := optical_tracking_read_register_pwm3360_0 bus REG_Delta_X_L t
  let (xh, t) := optical_tracking_read_register_pwm3360_0 bus REG_Delta_X_H t
  let (yl, t) := optical_tracking_read_register_pwm3360_0 bus REG_Delta_Y_L t
  let (yh, t) := optical_tracking_read_register_pwm3360_0 bus REG_Delta_Y_H t
  let (squal, t) := optical_tracking_read_register_pwm3360_0 bus REG_SQUAL t
  ({ isMotion := if status &&& 0x80 = 0 then 0 else 1,
     isOnSurface := if status &&& liftMask = 0 then 1 else 0,
     deltaA := assembleDelta xl xh,
     deltaB := assembleDelta yl yh,
     Squal := squal }, t)

/-- Modelled from the spec: one sample slot of the acquisition pipeline on
channel 1 (see `acquire_sample_0`). -/
def acquire_sample_1 (bus : Bus) (liftMask : Nat) (t : Trace) : Motion × Trace :=
  let (status, t) := optical_tracking_read_register_pwm3360_1 bus REG_Motion t
  let (xl, t) := optical_tracking_read_register_pwm3360_1 bus REG_Delta_X_L t
  let (xh, t) := optical_tracking_read_register_pwm3360_1 bus REG_Delta_X_H t
  let (yl, t) := optical_tracking_read_register_pwm3360_1 bus REG_Delta_Y_L t
  let (yh, t) := optical_tracking_read_register_pwm3360_1 bus REG_Delta_Y_H t
  let (squal, t) := optical_tracking_read_register_pwm3360_1 bus REG_SQUAL t
  ({ isMotion := if status &&& 0x80 = 0 then 0 else 1,
     isOnSurface := if status &&& liftMask = 0 then 1 else 0,
     deltaA := assembleDelta xl xh,
     deltaB := assembleDelta yl yh,
     Squal := squal }, t)

/-- The two's-complement reading of a 16-bit pattern: bit 15 weighs `-2^15`,
bits 0 to 14 have their usual weight. -/
def twosComplement16 (w : Nat) : Int :=
  Int.ofNat (w % 2 ^ 15) - (if w.testBit 15 then 2 ^ 15 else 0)

/-! ## Helper lemmas -/

theorem and_7F_mod (a : Nat) : (a &&& 0x7F) % 256 = a &&& 0x7F :=
  Nat.mod_eq_of_lt (lt_of_le_of_lt Nat.and_le_right (by decide))

theorem or_80_mod (a : Nat) (ha : a < 256) : (a ||| 0x80) % 256 = a ||| 0x80 :=
  Nat.mod_eq_of_lt (Nat.or_lt_two_pow (n := 8) ha (by decide))

theorem and_7F_of_lt (a : Nat) (ha : a < 128) : a &&& 0x7F = a := by
  have h := Nat.and_pow_two_sub_one_eq_mod a 7
  norm_num at h
  rw [h]
  exact Nat.mod_eq_of_lt ha

theorem or_80_and_7F (a : Nat) : (a ||| 0x80) &&& 0x7F = a &&& 0x7F := by
  apply Nat.eq_of_testBit_eq
  intro i
  have h1 : (0x7F : Nat) = 2 ^ 7 - 1 := by norm_num
  have h2 : (0x80 : Nat) = 2 ^ 7 := by norm_num
  rw [h1, h2]
  simp only [Nat.testBit_and, Nat.testBit_or, Nat.testBit_two_pow_sub_one, Nat.testBit_two_pow]
  by_cases h : i < 7
  · have : ¬ (7 = i) := by omega
    simp [h, this]
  · simp [h]

theorem read0_eq (bus : Bus) (a : Nat) (t : Trace) :
    optical_tracking_read_register_pwm3360_0 bus a t =
      (bus Flow.flow0 (t ++ readHead Flow.flow0 (a &&& 0x7F)) % 256,
       t ++ readEvents Flow.flow0 (a &&& 0x7F)
         (bus Flow.flow0 (t ++ readHead Flow.flow0 (a &&& 0x7F)) % 256)) := by
  simp [optical_tracking_read_register_pwm3360_0, spi_start_flow0, spi_stop_flow0,
    spi_tx_byte_flow0, spi_rx_byte_flow0, _delay_us, readHead, readEvents, and_7F_mod]

theorem read1_eq (bus : Bus) (a : Nat) (t : Trace) :
    optical_tracking_read_register_pwm3360_1 bus a t =
      (bus Flow.flow1 (t ++ readHead Flow.flow1 (a &&& 0x7F)) % 256,
       t ++ readEvents Flow.flow1 (a &&& 0x7F)
         (bus Flow.flow1 (t ++ readHead Flow.flow1 (a &&& 0x7F)) % 256)) := by
  simp [optical_tracking_read_register_pwm3360_1, spi_start_flow1, spi_stop_flow1,
    spi_tx_byte_flow1, spi_rx_byte_flow1, _delay_us, readHead, readEvents, and_7F_mod]

theorem write0_eq (a v : Nat) (t : Trace) :
    optical_tracking_write_register_pmw3360_0 a v t =
      t ++ writeEvents Flow.flow0 ((a ||| 0x80) % 256) v := by
  simp [optical_tracking_write_register_pmw3360_0, spi_start_flow0, spi_stop_flow0,
    spi_tx_byte_flow0, _delay_us, writeEvents]

theorem write1_eq (a v : Nat) (t : Trace) :
    optical_tracking_write_register_pmw3360_1 a v t =
      t ++ writeEvents Flow.flow1 ((a ||| 0x80) % 256) v := by
  simp [optical_tracking_write_register_pmw3360_1, spi_start_flow1, spi_stop_flow1,
    spi_tx_byte_flow1, _delay_us, writeEvents]

theorem txBytes_append (c : Flow) (t l : Trace) :
    txBytes c (t ++ l) = txBytes c t ++ txBytes c l := by
  induction t with
  | nil => rfl
  | cons e es ih =>
    cases e with
    | tx d b => by_cases h : d = c <;> simp [txBytes, ih, h]
    | _ => simp [txBytes, ih]

theorem rxBytes_append (c : Flow) (t l : Trace) :
    rxBytes c (t ++ l) = rxBytes c t ++ rxBytes c l := by
  induction t with
  | nil => rfl
  | cons e es ih =>
    cases e with
    | rx d b => by_cases h : d = c <;> simp [rxBytes, ih, h]
    | _ => simp [rxBytes, ih]

theorem uploadCalls_append (t l : Trace) :
    uploadCalls (t ++ l) = uploadCalls t ++ uploadCalls l := by
  induction t with
  | nil => rfl
  | cons e es ih => cases e <;> simp [uploadCalls, ih]

theorem totalDelayUs_append (t l : Trace) :
    totalDelayUs (t ++ l) = totalDelayUs t + totalDelayUs l := by
  induction t with
  | nil => simp [totalDelayUs]
  | cons e es ih => cases e <;> simp [totalDelayUs, ih] <;> omega

/-! ## Register access: what goes over the wire -/

/-- C1: on each channel separately, whatever the other channel's sensor
would answer: a register read of address `a` for which that channel's bus
answers with the byte `b` transmits exactly one byte, namely `a &&& 0x7F`,
receives exactly one byte, returns `b` unchanged, touches nothing on the other
channel, and does exactly the same when bit 7 of the address is set. -/
theorem read_register_wire_bytes (bus : Bus) (t : Trace) (a b0 b1 : Nat) :
    (b0 < 256 → bus Flow.flow0 (t ++ readHead Flow.flow0 (a &&& 0x7F)) = b0 →
      (optical_tracking_read_register_pwm3360_0 bus a t).1 = b0 ∧
      txBytes Flow.flow0 (optical_tracking_read_register_pwm3360_0 bus a t).2
        = txBytes Flow.flow0 t ++ [a &&& 0x7F] ∧
      rxBytes Flow.flow0 (optical_tracking_read_register_pwm3360_0 bus a t).2
        = rxBytes Flow.flow0 t ++ [b0] ∧
      txBytes Flow.flow1 (optical_tracking_read_register_pwm3360_0 bus a t).2
        = txBytes Flow.flow1 t ∧
      rxBytes Flow.flow1 (optical_tracking_read_register_pwm3360_0 bus a t).2
        = rxBytes Flow.flow1 t ∧
      optical_tracking_read_register_pwm3360_0 bus (a ||| 0x80) t
        = optical_tracking_read_register_pwm3360_0 bus a t) ∧
    (b1 < 256 → bus Flow.flow1 (t ++ readHead Flow.flow1 (a &&& 0x7F)) = b1 →
      (optical_tracking_read_register_pwm3360_1 bus a t).1 = b1 ∧
      txBytes Flow.flow1 (optical_tracking_read_register_pwm3360_1 bus a t).2
        = txBytes Flow.flow1 t ++ [a &&& 0x7F] ∧
      rxBytes Flow.flow1 (optical_tracking_read_register_pwm3360_1 bus a t).2
        = rxBytes Flow.flow1 t ++ [b1] ∧
      txBytes Flow.flow0 (optical_tracking_read_register_pwm3360_1 bus a t).2
        = txBytes Flow.flow0 t ∧
      rxBytes Flow.flow0 (optical_tracking_read_register_pwm3360_1 bus a t).2
        = rxBytes Flow.flow0 t ∧
      optical_tracking_read_register_pwm3360_1 bus (a ||| 0x80) t
        = optical_tracking_read_register_pwm3360_1 bus a t) := by
  constructor
  · intro hb h0
    have hm : b0 % 256 = b0 := Nat.mod_eq_of_lt hb
    refine ⟨?_, ?_, ?_, ?_, ?_, ?_⟩
    · rw [read0_eq, h0, hm]
    · rw [read0_eq, txBytes_append]; simp [readEvents, txBytes]
    · rw [read0_eq, rxBytes_append, h0, hm]; simp [readEvents, rxBytes]
    · rw [read0_eq, txBytes_append]; simp [readEvents, txBytes]
    · rw [read0_eq, rxBytes_append]; simp [readEvents, rxBytes]
    · rw [read0_eq, read0_eq, or_80_and_7F]
  · intro hb h1
    have hm : b1 % 256 = b1 := Nat.mod_eq_of_lt hb
    refine ⟨?_, ?_, ?_, ?_, ?_, ?_⟩
    · rw [read1_eq, h1, hm]
    · rw [read1_eq, txBytes_append]; simp [readEvents, txBytes]
    · rw [read1_eq, rxBytes_append, h1, hm]; simp [readEvents, rxBytes]
    · rw [read1_eq, txBytes_append]; simp [readEvents, txBytes]
    · rw [read1_eq, rxBytes_append]; simp [readEvents, rxBytes]
    · rw [read1_eq, read1_eq, or_80_and_7F]

/-- Witness for C1: address `0xBF` on a bus whose two sensors answer
differently (`0x11` on channel 0, `0x22` on channel 1); each read returns its
own channel's byte and transmits `0x3F`. -/
theorem read_register_wire_bytes_witness :
    ((0x11 : Nat) < 256 ∧ (0x22 : Nat) < 256) ∧
    (optical_tracking_read_register_pwm3360_0 (twoSensorBus 0x11 0x22) 0xBF []).1 = 0x11 ∧
    rxBytes Flow.flow0
        (optical_tracking_read_register_pwm3360_0 (twoSensorBus 0x11 0x22) 0xBF []).2
      = [0x11] ∧
    txBytes Flow.flow0
        (optical_tracking_read_register_pwm3360_0 (twoSensorBus 0x11 0x22) 0xBF []).2
      = [0x3F] ∧
    (optical_tracking_read_register_pwm3360_1 (twoSensorBus 0x11 0x22) 0xBF []).1 = 0x22 ∧
    rxBytes Flow.flow1
        (optical_tracking_read_register_pwm3360_1 (twoSensorBus 0x11 0x22) 0xBF []).2
      = [0x22] ∧
    txBytes Flow.flow1
        (optical_tracking_read_register_pwm3360_1 (twoSensorBus 0x11 0x22) 0xBF []).2
      = [0x3F] :=
  have h := read_register_wire_bytes (twoSensorBus 0x11 0x22) [] 0xBF 0x11 0x22
  have h0 := h.1 (by decide) rfl
  have h1 := h.2 (by decide) rfl
  ⟨⟨by decide, by decide⟩, h0.1, h0.2.2.1, h0.2.1, h1.1, h1.2.2.1, h1.2.1⟩

/-- C2: on either channel, a register write of the 8-bit address `a` and the
byte `v` transmits exactly two bytes, `a ||| 0x80` and then `v`, and receives
nothing; the other channel carries nothing. -/
theorem write_register_wire_bytes (t : Trace) (a v : Nat) (ha : a < 256) :
    (txBytes Flow.flow0 (optical_tracking_write_register_pmw3360_0 a v t)
        = txBytes Flow.flow0 t ++ [a ||| 0x80, v] ∧
      txBytes Flow.flow1 (optical_tracking_write_register_pmw3360_0 a v t)
        = txBytes Flow.flow1 t ∧
      (∀ c, rxBytes c (optical_tracking_write_register_pmw3360_0 a v t) = rxBytes c t)) ∧
    (txBytes Flow.flow1 (optical_tracking_write_register_pmw3360_1 a v t)
        = txBytes Flow.flow1 t ++ [a ||| 0x80, v] ∧
      txBytes Flow.flow0 (optical_tracking_write_register_pmw3360_1 a v t)
        = txBytes Flow.flow0 t ∧
      (∀ c, rxBytes c (optical_tracking_write_register_pmw3360_1 a v t) = rxBytes c t)) := by
  refine ⟨⟨?_, ?_, ?_⟩, ⟨?_, ?_, ?_⟩⟩
  · rw [write0_eq, txBytes_append, or_80_mod a ha]; simp [writeEvents, txBytes]
  · rw [write0_eq, txBytes_append]; simp [writeEvents, txBytes]
  · intro c; rw [write0_eq, rxBytes_append]; simp [writeEvents, rxBytes]
  · rw [write1_eq, txBytes_append, or_80_mod a ha]; simp [writeEvents, txBytes]
  · rw [write1_eq, txBytes_append]; simp [writeEvents, txBytes]
  · intro c; rw [write1_eq, rxBytes_append]; simp [writeEvents, rxBytes]

/-- Witness for C2: the reset write `(0x3A, 0x5A)` puts `0xBA, 0x5A` on the wire. -/
theorem write_register_wire_bytes_witness :
    (0x3A < 256) ∧
    txBytes Flow.flow0 (optical_tracking_write_register_pmw3360_0 0x3A 0x5A [])
      = [0xBA, 0x5A] ∧
    txBytes Flow.flow1 (optical_tracking_write_register_pmw3360_1 0x3A 0x5A [])
      = [0xBA, 0x5A] :=
  have h := write_register_wire_bytes [] 0x3A 0x5A (by decide)
  ⟨by decide, h.1.1, h.2.1⟩

/-- C5: on each channel separately, whatever the other channel's sensor
would answer: the complete event sequence of a register read for which that
channel's bus answers `b` is select, wait 1 us, wait 10 us, transmit
`a &&& 0x7F`, wait 100 us, receive `b`, wait 1 us, deselect, wait 19 us; the
read returns `b` and waits 131 us in all. -/
theorem read_register_event_trace (bus : Bus) (t : Trace) (a b0 b1 : Nat) :
    (b0 < 256 → bus Flow.flow0 (t ++ readHead Flow.flow0 (a &&& 0x7F)) = b0 →
      optical_tracking_read_register_pwm3360_0 bus a t =
        (b0, t ++ [Event.start Flow.flow0, Event.delay_us 1, Event.delay_us 10,
                   Event.tx Flow.flow0 (a &&& 0x7F), Event.delay_us 100,
                   Event.rx Flow.flow0 b0, Event.delay_us 1, Event.stop Flow.flow0,
                   Event.delay_us 19]) ∧
      totalDelayUs (optical_tracking_read_register_pwm3360_0 bus a t).2
        = totalDelayUs t + 131) ∧
    (b1 < 256 → bus Flow.flow1 (t ++ readHead Flow.flow1 (a &&& 0x7F)) = b1 →
      optical_tracking_read_register_pwm3360_1 bus a t =
        (b1, t ++ [Event.start Flow.flow1, Event.delay_us 1, Event.delay_us 10,
                   Event.tx Flow.flow1 (a &&& 0x7F), Event.delay_us 100,
                   Event.rx Flow.flow1 b1, Event.delay_us 1, Event.stop Flow.flow1,
                   Event.delay_us 19]) ∧
      totalDelayUs (optical_tracking_read_register_pwm3360_1 bus a t).2
        = totalDelayUs t + 131) := by
  constructor
  · intro hb h0
    have hm : b0 % 256 = b0 := Nat.mod_eq_of_lt hb
    refine ⟨?_, ?_⟩
    · rw [read0_eq, h0, hm]; rfl
    · rw [read0_eq, totalDelayUs_append]; simp [readEvents, totalDelayUs]
  · intro hb h1
    have hm : b1 % 256 = b1 := Nat.mod_eq_of_lt hb
    refine ⟨?_, ?_⟩
    · rw [read1_eq, h1, hm]; rfl
    · rw [read1_eq, totalDelayUs_append]; simp [readEvents, totalDelayUs]

/-- Witness for C5: reading register `0x02` on a bus whose two sensors answer
differently (`0x80` on channel 0, `0x00` on channel 1); both reads show the
full nine-event sequence with their own byte and wait 131 us. -/
theorem read_register_event_trace_witness :
    ((0x80 : Nat) < 256 ∧ (0x00 : Nat) < 256) ∧
    optical_tracking_read_register_pwm3360_0 (twoSensorBus 0x80 0x00) 0x02 [] =
      (0x80, [Event.start Flow.flow0, Event.delay_us 1, Event.delay_us 10,
              Event.tx Flow.flow0 0x02, Event.delay_us 100,
              Event.rx Flow.flow0 0x80, Event.delay_us 1, Event.stop Flow.flow0,
              Event.delay_us 19]) ∧
    totalDelayUs (optical_tracking_read_register_pwm3360_0 (twoSensorBus 0x80 0x00) 0x02 []).2
      = 131 ∧
    optical_tracking_read_register_pwm3360_1 (twoSensorBus 0x80 0x00) 0x02 [] =
      (0x00, [Event.start Flow.flow1, Event.delay_us 1, Event.delay_us 10,
              Event.tx Flow.flow1 0x02, Event.delay_us 100,
              Event.rx Flow.flow1 0x00, Event.delay_us 1, Event.stop Flow.flow1,
              Event.delay_us 19]) ∧
    totalDelayUs (optical_tracking_read_register_pwm3360_1 (twoSensorBus 0x80 0x00) 0x02 []).2
      = 131 :=
  have h := read_register_event_trace (twoSensorBus 0x80 0x00) [] 0x02 0x80 0x00
  have h0 := h.1 (by decide) rfl
  have h1 := h.2 (by decide) rfl
  ⟨⟨by decide, by decide⟩, h0.1, h0.2, h1.1, h1.2⟩

/-- C6: the complete event sequence of a register write, on either channel, is
select, wait 1 us, wait 10 us, transmit `a ||| 0x80`, wait 1 us, wait 10 us,
transmit `v`, wait 20 us, deselect, wait 100 us; the write waits 142 us in all. -/
theorem write_register_event_trace (t : Trace) (a v : Nat) (ha : a < 256) :
    (optical_tracking_write_register_pmw3360_0 a v t =
        t ++ [Event.start Flow.flow0, Event.delay_us 1, Event.delay_us 10,
              Event.tx Flow.flow0 (a ||| 0x80), Event.delay_us 1, Event.delay_us 10,
              Event.tx Flow.flow0 v, Event.delay_us 20, Event.stop Flow.flow0,
              Event.delay_us 100] ∧
      totalDelayUs (optical_tracking_write_register_pmw3360_0 a v t)
        = totalDelayUs t + 142) ∧
    (optical_tracking_write_register_pmw3360_1 a v t =
        t ++ [Event.start Flow.flow1, Event.delay_us 1, Event.delay_us 10,
              Event.tx Flow.flow1 (a ||| 0x80), Event.delay_us 1, Event.delay_us 10,
              Event.tx Flow.flow1 v, Event.delay_us 20, Event.stop Flow.flow1,
              Event.delay_us 100] ∧
      totalDelayUs (optical_tracking_write_register_pmw3360_1 a v t)
        = totalDelayUs t + 142) := by
  refine ⟨⟨?_, ?_⟩, ⟨?_, ?_⟩⟩
  · rw [write0_eq, or_80_mod a ha]; rfl
  · rw [write0_eq, totalDelayUs_append]; simp [writeEvents, totalDelayUs]
  · rw [write1_eq, or_80_mod a ha]; rfl
  · rw [write1_eq, totalDelayUs_append]; simp [writeEvents, totalDelayUs]

/-- Witness for C6: the reset write `(0x3A, 0x5A)`. -/
theorem write_register_event_trace_witness :
    optical_tracking_write_register_pmw3360_0 0x3A 0x5A [] =
      [Event.start Flow.flow0, Event.delay_us 1, Event.delay_us 10,
       Event.tx Flow.flow0 0xBA, Event.delay_us 1, Event.delay_us 10,
       Event.tx Flow.flow0 0x5A, Event.delay_us 20, Event.stop Flow.flow0,
       Event.delay_us 100] ∧
    totalDelayUs (optical_tracking_write_register_pmw3360_1 0x3A 0x5A []) = 142 :=
  have h := write_register_event_trace [] 0x3A 0x5A (by decide)
  ⟨h.1.1, h.2.2⟩

/-! ## Initialisation -/

theorem read0_ex (bus : Bus) (a : Nat) (ha : a < 128) (t : Trace) :
    ∃ b, optical_tracking_read_register_pwm3360_0 bus a t =
      (b, t ++ readEvents Flow.flow0 a b) := by
  refine ⟨bus Flow.flow0 (t ++ readHead Flow.flow0 a) % 256, ?_⟩
  rw [read0_eq, and_7F_of_lt a ha]

theorem init0_eq (bus : Bus) (t : Trace) (p q : Nat)
    (hp : bus Flow.flow0 (t ++ idHeadP Flow.flow0) % 256 = p)
    (hq : bus Flow.flow0 (t ++ idHeadQ Flow.flow0 p) % 256 = q) :
    (¬ (p = 0x47 ∧ q = 0xB8) →
      optical_tracking_initialize_pwm3360_0 bus t = (false, t ++ idEvents Flow.flow0 p q)) ∧
    ((p = 0x47 ∧ q = 0xB8) → ∃ b1 b2 b3 b4 b5,
      optical_tracking_initialize_pwm3360_0 bus t =
        (true, t ++ idEvents Flow.flow0 p q ++ drainEvents Flow.flow0 b1 b2 b3 b4 b5
          ++ [Event.delay_ms 10])) := by
  have e1 : (0x3A ||| 0x80) % 256 = 0xBA := by decide
  have e2 : (0x00 &&& 0x7F) = 0x00 := by decide
  have e3 : (0x3F &&& 0x7F) = 0x3F := by decide
  have r1 : optical_tracking_read_register_pwm3360_0 bus 0x00
      (t ++ writeEvents Flow.flow0 0xBA 0x5A ++ [Event.delay_ms 100]) =
      (p, t ++ writeEvents Flow.flow0 0xBA 0x5A ++ [Event.delay_ms 100]
        ++ readEvents Flow.flow0 0x00 p) := by
    rw [read0_eq, e2]
    have : bus Flow.flow0 (t ++ writeEvents Flow.flow0 0xBA 0x5A ++ [Event.delay_ms 100]
        ++ readHead Flow.flow0 0x00) % 256 = p := by
      rw [← hp]; simp [idHeadP, List.append_assoc]
    rw [this]
  have r2 : optical_tracking_read_register_pwm3360_0 bus 0x3F
      (t ++ writeEvents Flow.flow0 0xBA 0x5A ++ [Event.delay_ms 100]
        ++ readEvents Flow.flow0 0x00 p) =
      (q, t ++ writeEvents Flow.flow0 0xBA 0x5A ++ [Event.delay_ms 100]
        ++ readEvents Flow.flow0 0x00 p ++ readEvents Flow.flow0 0x3F q) := by
    rw [read0_eq, e3]
    have : bus Flow.flow0 (t ++ writeEvents Flow.flow0 0xBA 0x5A ++ [Event.delay_ms 100]
        ++ readEvents Flow.flow0 0x00 p ++ readHead Flow.flow0 0x3F) % 256 = q := by
      rw [← hq]; simp [idHeadQ, List.append_assoc]
    rw [this]
  constructor
  · intro h
    have hc : (p != 0x47 || q != 0xB8) = true := by
      by_cases h1 : p = 0x47
      · have h2 : ¬ q = 0xB8 := fun h2 => h ⟨h1, h2⟩
        simp [h1, h2]
      · simp [h1]
    simp only [optical_tracking_initialize_pwm3360_0, write0_eq, _delay_ms,
      REG_Power_Up_Reset, REG_Product_ID, REG_Inverse_Product_ID, e1, r1, r2, hc, if_true]
    simp [idEvents, List.append_assoc]
  · rintro ⟨h1, h2⟩
    subst h1 h2
    obtain ⟨b1, d1⟩ := read0_ex bus 0x02 (by decide) (t ++ idEvents Flow.flow0 0x47 0xB8)
    obtain ⟨b2, d2⟩ := read0_ex bus 0x03 (by decide) (t ++ idEvents Flow.flow0 0x47 0xB8
      ++ readEvents Flow.flow0 0x02 b1)
    obtain ⟨b3, d3⟩ := read0_ex bus 0x04 (by decide) (t ++ idEvents Flow.flow0 0x47 0xB8
      ++ readEvents Flow.flow0 0x02 b1 ++ readEvents Flow.flow0 0x03 b2)
    obtain ⟨b4, d4⟩ := read0_ex bus 0x05 (by decide) (t ++ idEvents Flow.flow0 0x47 0xB8
      ++ readEvents Flow.flow0 0x02 b1 ++ readEvents Flow.flow0 0x03 b2
      ++ readEvents Flow.flow0 0x04 b3)
    obtain ⟨b5, d5⟩ := read0_ex bus 0x06 (by decide) (t ++ idEvents Flow.flow0 0x47 0xB8
      ++ readEvents Flow.flow0 0x02 b1 ++ readEvents Flow.flow0 0x03 b2
      ++ readEvents Flow.flow0 0x04 b3 ++ readEvents Flow.flow0 0x05 b4)
    have hid : t ++ writeEvents Flow.flow0 0xBA 0x5A ++ [Event.delay_ms 100]
        ++ readEvents Flow.flow0 0x00 0x47 ++ readEvents Flow.flow0 0x3F 0xB8
        = t ++ idEvents Flow.flow0 0x47 0xB8 := by
      simp [idEvents, List.append_assoc]
    have hc : (((0x47 : Nat) != 0x47) || ((0xB8 : Nat) != 0xB8)) = false := by decide
    refine ⟨b1, b2, b3, b4, b5, ?_⟩
    simp only [optical_tracking_initialize_pwm3360_0, write0_eq, _delay_ms,
      REG_Power_Up_Reset, REG_Product_ID, REG_Inverse_Product_ID, REG_Motion, REG_Delta_X_L,
      REG_Delta_X_H, REG_Delta_Y_L, REG_Delta_Y_H, e1, r1, r2, hid, hc, d1, d2, d3, d4, d5]
    simp [drainEvents, List.append_assoc]

theorem read1_ex (bus : Bus) (a : Nat) (ha : a < 128) (t : Trace) :
    ∃ b, optical_tracking_read_register_pwm3360_1 bus a t =
      (b, t ++ readEvents Flow.flow1 a b) := by
  refine ⟨bus Flow.flow1 (t ++ readHead Flow.flow1 a) % 256, ?_⟩
  rw [read1_eq, and_7F_of_lt a ha]

theorem init1_eq (bus : Bus) (t : Trace) (p q : Nat)
    (hp : bus Flow.flow1 (t ++ idHeadP Flow.flow1) % 256 = p)
    (hq : bus Flow.flow1 (t ++ idHeadQ Flow.flow1 p) % 256 = q) :
    (¬ (p = 0x47 ∧ q = 0xB8) →
      optical_tracking_initialize_pwm3360_1 bus t = (false, t ++ idEvents Flow.flow1 p q)) ∧
    ((p = 0x47 ∧ q = 0xB8) → ∃ b1 b2 b3 b4 b5,
      optical_tracking_initialize_pwm3360_1 bus t =
        (true, t ++ idEvents Flow.flow1 p q ++ drainEvents Flow.flow1 b1 b2 b3 b4 b5
          ++ [Event.delay_ms 10])) := by
  have e1 : (0x3A ||| 0x80) % 256 = 0xBA := by decide
  have e2 : (0x00 &&& 0x7F) = 0x00 := by decide
  have e3 : (0x3F &&& 0x7F) = 0x3F := by decide
  have r1 : optical_tracking_read_register_pwm3360_1 bus 0x00
      (t ++ writeEvents Flow.flow1 0xBA 0x5A ++ [Event.delay_ms 100]) =
      (p, t ++ writeEvents Flow.flow1 0xBA 0x5A ++ [Event.delay_ms 100]
        ++ readEvents Flow.flow1 0x00 p) := by
    rw [read1_eq, e2]
    have : bus Flow.flow1 (t ++ writeEvents Flow.flow1 0xBA 0x5A ++ [Event.delay_ms 100]
        ++ readHead Flow.flow1 0x00) % 256 = p := by
      rw [← hp]; simp [idHeadP, List.append_assoc]
    rw [this]
  have r2 : optical_tracking_read_register_pwm3360_1 bus 0x3F
      (t ++ writeEvents Flow.flow1 0xBA 0x5A ++ [Event.delay_ms 100]
        ++ readEvents Flow.flow1 0x00 p) =
      (q, t ++ writeEvents Flow.flow1 0xBA 0x5A ++ [Event.delay_ms 100]
        ++ readEvents Flow.flow1 0x00 p ++ readEvents Flow.flow1 0x3F q) := by
    rw [read1_eq, e3]
    have : bus Flow.flow1 (t ++ writeEvents Flow.flow1 0xBA 0x5A ++ [Event.delay_ms 100]
        ++ readEvents Flow.flow1 0x00 p ++ readHead Flow.flow1 0x3F) % 256 = q := by
      rw [← hq]; simp [idHeadQ, List.append_assoc]
    rw [this]
  constructor
  · intro h
    have hc : (p != 0x47 || q != 0xB8) = true := by
      by_cases h1 : p = 0x47
      · have h2 : ¬ q = 0xB8 := fun h2 => h ⟨h1, h2⟩
        simp [h1, h2]
      · simp [h1]
    simp only [optical_tracking_initialize_pwm3360_1, write1_eq, _delay_ms,
      REG_Power_Up_Reset, REG_Product_ID, REG_Inverse_Product_ID, e1, r1, r2, hc, if_true]
    simp [idEvents, List.append_assoc]
  · rintro ⟨h1, h2⟩
    subst h1 h2
    obtain ⟨b1, d1⟩ := read1_ex bus 0x02 (by decide) (t ++ idEvents Flow.flow1 0x47 0xB8)
    obtain ⟨b2, d2⟩ := read1_ex bus 0x03 (by decide) (t ++ idEvents Flow.flow1 0x47 0xB8
      ++ readEvents Flow.flow1 0x02 b1)
    obtain ⟨b3, d3⟩ := read1_ex bus 0x04 (by decide) (t ++ idEvents Flow.flow1 0x47 0xB8
      ++ readEvents Flow.flow1 0x02 b1 ++ readEvents Flow.flow1 0x03 b2)
    obtain ⟨b4, d4⟩ := read1_ex bus 0x05 (by decide) (t ++ idEvents Flow.flow1 0x47 0xB8
      ++ readEvents Flow.flow1 0x02 b1 ++ readEvents Flow.flow1 0x03 b2
      ++ readEvents Flow.flow1 0x04 b3)
    obtain ⟨b5, d5⟩ := read1_ex bus 0x06 (by decide) (t ++ idEvents Flow.flow1 0x47 0xB8
      ++ readEvents Flow.flow1 0x02 b1 ++ readEvents Flow.flow1 0x03 b2
      ++ readEvents Flow.flow1 0x04 b3 ++ readEvents Flow.flow1 0x05 b4)
    have hid : t ++ writeEvents Flow.flow1 0xBA 0x5A ++ [Event.delay_ms 100]
        ++ readEvents Flow.flow1 0x00 0x47 ++ readEvents Flow.flow1 0x3F 0xB8
        = t ++ idEvents Flow.flow1 0x47 0xB8 := by
      simp [idEvents, List.append_assoc]
    have hc : (((0x47 : Nat) != 0x47) || ((0xB8 : Nat) != 0xB8)) = false := by decide
    refine ⟨b1, b2, b3, b4, b5, ?_⟩
    simp only [optical_tracking_initialize_pwm3360_1, write1_eq, _delay_ms,
      REG_Power_Up_Reset, REG_Product_ID, REG_Inverse_Product_ID, REG_Motion, REG_Delta_X_L,
      REG_Delta_X_H, REG_Delta_Y_L, REG_Delta_Y_H, e1, r1, r2, hid, hc, d1, d2, d3, d4, d5]
    simp [drainEvents, List.append_assoc]

/-- C3: on either channel, when the Product_ID read returns `p` and the
Inverse_Product_ID read returns `q` with `(p, q)` different from `(0x47, 0xB8)`,
`initialize` returns false, its trace stops right after the Inverse_Product_ID
read (the only bytes transmitted are `0xBA, 0x5A, 0x00, 0x3F`, so none of the
draining reads happens), and no firmware upload is called. -/
theorem initialize_rejects_wrong_identity (bus : Bus) (t : Trace) (p q : Nat)
    (hne : ¬ (p = 0x47 ∧ q = 0xB8)) :
    (bus Flow.flow0 (t ++ idHeadP Flow.flow0) % 256 = p →
      bus Flow.flow0 (t ++ idHeadQ Flow.flow0 p) % 256 = q →
      optical_tracking_initialize_pwm3360_0 bus t = (false, t ++ idEvents Flow.flow0 p q) ∧
      txBytes Flow.flow0 (optical_tracking_initialize_pwm3360_0 bus t).2
        = txBytes Flow.flow0 t ++ [0xBA, 0x5A, 0x00, 0x3F] ∧
      uploadCalls (optical_tracking_initialize_pwm3360_0 bus t).2 = uploadCalls t) ∧
    (bus Flow.flow1 (t ++ idHeadP Flow.flow1) % 256 = p →
      bus Flow.flow1 (t ++ idHeadQ Flow.flow1 p) % 256 = q →
      optical_tracking_initialize_pwm3360_1 bus t = (false, t ++ idEvents Flow.flow1 p q) ∧
      txBytes Flow.flow1 (optical_tracking_initialize_pwm3360_1 bus t).2
        = txBytes Flow.flow1 t ++ [0xBA, 0x5A, 0x00, 0x3F] ∧
      uploadCalls (optical_tracking_initialize_pwm3360_1 bus t).2 = uploadCalls t) := by
  constructor
  · intro hp hq
    have h := (init0_eq bus t p q hp hq).1 hne
    refine ⟨h, ?_, ?_⟩
    · rw [h, txBytes_append]; simp [idEvents, writeEvents, readEvents, txBytes]
    · rw [h, uploadCalls_append]; simp [idEvents, writeEvents, readEvents, uploadCalls]
  · intro hp hq
    have h := (init1_eq bus t p q hp hq).1 hne
    refine ⟨h, ?_, ?_⟩
    · rw [h, txBytes_append]; simp [idEvents, writeEvents, readEvents, txBytes]
    · rw [h, uploadCalls_append]; simp [idEvents, writeEvents, readEvents, uploadCalls]

/-- Witness for C3: a bus that answers `0x47` to both identity reads (the
product ID matches, its inverse does not). -/
theorem initialize_rejects_wrong_identity_witness :
    ¬ ((0x47 : Nat) = 0x47 ∧ (0x47 : Nat) = 0xB8) ∧
    optical_tracking_initialize_pwm3360_0 (scriptedBus [0x47, 0x47]) []
      = (false, [] ++ idEvents Flow.flow0 0x47 0x47) ∧
    optical_tracking_initialize_pwm3360_1 (scriptedBus [0x47, 0x47]) []
      = (false, [] ++ idEvents Flow.flow1 0x47 0x47) :=
  have h := initialize_rejects_wrong_identity (scriptedBus [0x47, 0x47]) [] 0x47 0x47
    (by decide)
  ⟨by decide, (h.1 rfl rfl).1, (h.2 rfl rfl).1⟩

/-- C4: on either channel, when the Product_ID read returns `0x47` and the
Inverse_Product_ID read returns `0xB8`, `initialize` returns true whatever the
later reads return, and what follows the two identity reads is exactly five
reads transmitting `0x02, 0x03, 0x04, 0x05, 0x06` in that order (then the
final 10 ms wait). -/
theorem initialize_accepts_and_drains (bus : Bus) (t : Trace) :
    (bus Flow.flow0 (t ++ idHeadP Flow.flow0) % 256 = 0x47 →
      bus Flow.flow0 (t ++ idHeadQ Flow.flow0 0x47) % 256 = 0xB8 →
      ∃ b1 b2 b3 b4 b5,
        optical_tracking_initialize_pwm3360_0 bus t =
          (true, t ++ idEvents Flow.flow0 0x47 0xB8
            ++ (readEvents Flow.flow0 0x02 b1 ++ readEvents Flow.flow0 0x03 b2 ++
                readEvents Flow.flow0 0x04 b3 ++ readEvents Flow.flow0 0x05 b4 ++
                readEvents Flow.flow0 0x06 b5)
            ++ [Event.delay_ms 10]) ∧
        txBytes Flow.flow0 (optical_tracking_initialize_pwm3360_0 bus t).2 =
          txBytes Flow.flow0 (t ++ idEvents Flow.flow0 0x47 0xB8)
            ++ [0x02, 0x03, 0x04, 0x05, 0x06]) ∧
    (bus Flow.flow1 (t ++ idHeadP Flow.flow1) % 256 = 0x47 →
      bus Flow.flow1 (t ++ idHeadQ Flow.flow1 0x47) % 256 = 0xB8 →
      ∃ b1 b2 b3 b4 b5,
        optical_tracking_initialize_pwm3360_1 bus t =
          (true, t ++ idEvents Flow.flow1 0x47 0xB8
            ++ (readEvents Flow.flow1 0x02 b1 ++ readEvents Flow.flow1 0x03 b2 ++
                readEvents Flow.flow1 0x04 b3 ++ readEvents Flow.flow1 0x05 b4 ++
                readEvents Flow.flow1 0x06 b5)
            ++ [Event.delay_ms 10]) ∧
        txBytes Flow.flow1 (optical_tracking_initialize_pwm3360_1 bus t).2 =
          txBytes Flow.flow1 (t ++ idEvents Flow.flow1 0x47 0xB8)
            ++ [0x02, 0x03, 0x04, 0x05, 0x06]) := by
  constructor
  · intro hp hq
    obtain ⟨b1, b2, b3, b4, b5, h⟩ := (init0_eq bus t 0x47 0xB8 hp hq).2 ⟨rfl, rfl⟩
    refine ⟨b1, b2, b3, b4, b5, h, ?_⟩
    rw [h, txBytes_append, txBytes_append]
    simp [drainEvents, readEvents, txBytes]
  · intro hp hq
    obtain ⟨b1, b2, b3, b4, b5, h⟩ := (init1_eq bus t 0x47 0xB8 hp hq).2 ⟨rfl, rfl⟩
    refine ⟨b1, b2, b3, b4, b5, h, ?_⟩
    rw [h, txBytes_append, txBytes_append]
    simp [drainEvents, readEvents, txBytes]

/-- Witness for C4: a bus that answers `0x47`, `0xB8` and then arbitrary
bytes; both channels accept and transmit the five draining addresses. -/
theorem initialize_accepts_and_drains_witness :
    (optical_tracking_initialize_pwm3360_0 (scriptedBus [0x47, 0xB8, 9, 8, 7, 6, 5]) []).1
      = true ∧
    txBytes Flow.flow0
        (optical_tracking_initialize_pwm3360_0 (scriptedBus [0x47, 0xB8, 9, 8, 7, 6, 5]) []).2
      = [0xBA, 0x5A, 0x00, 0x3F, 0x02, 0x03, 0x04, 0x05, 0x06] ∧
    (optical_tracking_initialize_pwm3360_1 (scriptedBus [0x47, 0xB8, 9, 8, 7, 6, 5]) []).1
      = true := by
  have h := initialize_accepts_and_drains (scriptedBus [0x47, 0xB8, 9, 8, 7, 6, 5]) []
  obtain ⟨_, _, _, _, _, h0, h0'⟩ := h.1 rfl rfl
  obtain ⟨_, _, _, _, _, h1, _⟩ := h.2 rfl rfl
  refine ⟨by rw [h0], ?_, by rw [h1]⟩
  rw [h0']
  rfl

/-- C7: on either channel and for every bus, the events of `initialize` begin
with the write transaction of `0x5A` to Power_Up_Reset (bytes `0xBA`, `0x5A`),
nothing before it, then the 100 ms wait, then a read transmitting `0x00`
(Product_ID), then a read transmitting `0x3F` (Inverse_Product_ID), with
nothing in between. -/
theorem initialize_reset_then_identity_reads (bus : Bus) (t : Trace) :
    (∃ p q rest, (optical_tracking_initialize_pwm3360_0 bus t).2 =
      t ++ (writeEvents Flow.flow0 0xBA 0x5A ++ [Event.delay_ms 100]
        ++ readEvents Flow.flow0 0x00 p ++ readEvents Flow.flow0 0x3F q) ++ rest) ∧
    (∃ p q rest, (optical_tracking_initialize_pwm3360_1 bus t).2 =
      t ++ (writeEvents Flow.flow1 0xBA 0x5A ++ [Event.delay_ms 100]
        ++ readEvents Flow.flow1 0x00 p ++ readEvents Flow.flow1 0x3F q) ++ rest) := by
  constructor
  · obtain ⟨p, hp⟩ : ∃ p, bus Flow.flow0 (t ++ idHeadP Flow.flow0) % 256 = p := ⟨_, rfl⟩
    obtain ⟨q, hq⟩ : ∃ q, bus Flow.flow0 (t ++ idHeadQ Flow.flow0 p) % 256 = q := ⟨_, rfl⟩
    have h := init0_eq bus t p q hp hq
    by_cases hc : p = 0x47 ∧ q = 0xB8
    · obtain ⟨b1, b2, b3, b4, b5, e⟩ := h.2 hc
      refine ⟨p, q, drainEvents Flow.flow0 b1 b2 b3 b4 b5 ++ [Event.delay_ms 10], ?_⟩
      rw [e]
      simp [idEvents, List.append_assoc]
    · refine ⟨p, q, [], ?_⟩
      rw [h.1 hc]
      simp [idEvents, List.append_assoc]
  · obtain ⟨p, hp⟩ : ∃ p, bus Flow.flow1 (t ++ idHeadP Flow.flow1) % 256 = p := ⟨_, rfl⟩
    obtain ⟨q, hq⟩ : ∃ q, bus Flow.flow1 (t ++ idHeadQ Flow.flow1 p) % 256 = q := ⟨_, rfl⟩
    have h := init1_eq bus t p q hp hq
    by_cases hc : p = 0x47 ∧ q = 0xB8
    · obtain ⟨b1, b2, b3, b4, b5, e⟩ := h.2 hc
      refine ⟨p, q, drainEvents Flow.flow1 b1 b2 b3 b4 b5 ++ [Event.delay_ms 10], ?_⟩
      rw [e]
      simp [idEvents, List.append_assoc]
    · refine ⟨p, q, [], ?_⟩
      rw [h.1 hc]
      simp [idEvents, List.append_assoc]

/-- C8, what the code does: with the identity check passing on a simulated
bus, `initialize` returns true on either channel and its whole trace is the
identity phase, the five draining reads and the 10 ms wait; the firmware
upload announced by the comment `// Upload firmware` is never called. -/
theorem initialize_success_makes_no_upload_call :
    (optical_tracking_initialize_pwm3360_0 (scriptedBus [0x47, 0xB8]) [] =
        (true, idEvents Flow.flow0 0x47 0xB8 ++ drainEvents Flow.flow0 0 0 0 0 0
          ++ [Event.delay_ms 10]) ∧
      uploadCalls (optical_tracking_initialize_pwm3360_0 (scriptedBus [0x47, 0xB8]) []).2
        = []) ∧
    (optical_tracking_initialize_pwm3360_1 (scriptedBus [0x47, 0xB8]) [] =
        (true, idEvents Flow.flow1 0x47 0xB8 ++ drainEvents Flow.flow1 0 0 0 0 0
          ++ [Event.delay_ms 10]) ∧
      uploadCalls (optical_tracking_initialize_pwm3360_1 (scriptedBus [0x47, 0xB8]) []).2
        = []) :=
  ⟨⟨rfl, rfl⟩, ⟨rfl, rfl⟩⟩

/-! ## Bus discipline over sequences of calls -/

theorem runChecker_append {σ : Type} (step : σ → Event → Option σ) (s : σ) (xs ys : Trace) :
    runChecker step s (xs ++ ys) =
      (runChecker step s xs).bind (fun s' => runChecker step s' ys) := by
  induction xs generalizing s with
  | nil => rfl
  | cons e es ih =>
    simp only [List.cons_append, runChecker]
    cases step s e with
    | none => rfl
    | some s' => exact ih s'

theorem closedOn_append (c : Flow) (xs ys : Trace) (hx : closedOn c xs) (hy : closedOn c ys) :
    closedOn c (xs ++ ys) := by
  refine ⟨fun d => ?_, ?_, ?_⟩
  · rw [runChecker_append, hx.1 d]; exact hy.1 d
  · rw [runChecker_append, hx.2.1]; exact hy.2.1
  · have h1 := hx.2.2
    have h2 := hy.2.2
    simp only [onlyOnChannel, List.all_append, Bool.and_eq_true] at *
    exact ⟨h1, h2⟩

theorem closedOn_read (c : Flow) (a b : Nat) : closedOn c (readEvents c a b) := by
  refine ⟨fun d => ?_, ?_, ?_⟩
  · cases c <;> cases d <;> rfl
  · cases c <;> rfl
  · cases c <;> rfl

theorem closedOn_write (c : Flow) (a v : Nat) : closedOn c (writeEvents c a v) := by
  refine ⟨fun d => ?_, ?_, ?_⟩
  · cases c <;> cases d <;> rfl
  · cases c <;> rfl
  · cases c <;> rfl

theorem closedOn_delay_ms (c : Flow) (n : Nat) : closedOn c [Event.delay_ms n] :=
  ⟨fun _ => rfl, rfl, rfl⟩

theorem closedOn_idEvents (c : Flow) (p q : Nat) : closedOn c (idEvents c p q) :=
  closedOn_append c _ _
    (closedOn_append c _ _
      (closedOn_append c _ _ (closedOn_write c _ _) (closedOn_delay_ms c _))
      (closedOn_read c _ _))
    (closedOn_read c _ _)

theorem closedOn_drainEvents (c : Flow) (b1 b2 b3 b4 b5 : Nat) :
    closedOn c (drainEvents c b1 b2 b3 b4 b5) :=
  closedOn_append c _ _
    (closedOn_append c _ _
      (closedOn_append c _ _
        (closedOn_append c _ _ (closedOn_read c _ _) (closedOn_read c _ _))
        (closedOn_read c _ _))
      (closedOn_read c _ _))
    (closedOn_read c _ _)

theorem init0_closed (bus : Bus) (t : Trace) :
    ∃ new, (optical_tracking_initialize_pwm3360_0 bus t).2 = t ++ new ∧
      closedOn Flow.flow0 new := by
  obtain ⟨p, hp⟩ : ∃ p, bus Flow.flow0 (t ++ idHeadP Flow.flow0) % 256 = p := ⟨_, rfl⟩
  obtain ⟨q, hq⟩ : ∃ q, bus Flow.flow0 (t ++ idHeadQ Flow.flow0 p) % 256 = q := ⟨_, rfl⟩
  have h := init0_eq bus t p q hp hq
  by_cases hc : p = 0x47 ∧ q = 0xB8
  · obtain ⟨b1, b2, b3, b4, b5, e⟩ := h.2 hc
    refine ⟨idEvents Flow.flow0 p q ++ drainEvents Flow.flow0 b1 b2 b3 b4 b5
      ++ [Event.delay_ms 10], ?_, ?_⟩
    · rw [e]; simp [List.append_assoc]
    · exact closedOn_append _ _ _
        (closedOn_append _ _ _ (closedOn_idEvents _ _ _) (closedOn_drainEvents _ _ _ _ _ _))
        (closedOn_delay_ms _ _)
  · exact ⟨idEvents Flow.flow0 p q, by rw [h.1 hc], closedOn_idEvents _ _ _⟩

theorem init1_closed (bus : Bus) (t : Trace) :
    ∃ new, (optical_tracking_initialize_pwm3360_1 bus t).2 = t ++ new ∧
      closedOn Flow.flow1 new := by
  obtain ⟨p, hp⟩ : ∃ p, bus Flow.flow1 (t ++ idHeadP Flow.flow1) % 256 = p := ⟨_, rfl⟩
  obtain ⟨q, hq⟩ : ∃ q, bus Flow.flow1 (t ++ idHeadQ Flow.flow1 p) % 256 = q := ⟨_, rfl⟩
  have h := init1_eq bus t p q hp hq
  by_cases hc : p = 0x47 ∧ q = 0xB8
  · obtain ⟨b1, b2, b3, b4, b5, e⟩ := h.2 hc
    refine ⟨idEvents Flow.flow1 p q ++ drainEvents Flow.flow1 b1 b2 b3 b4 b5
      ++ [Event.delay_ms 10], ?_, ?_⟩
    · rw [e]; simp [List.append_assoc]
    · exact closedOn_append _ _ _
        (closedOn_append _ _ _ (closedOn_idEvents _ _ _) (closedOn_drainEvents _ _ _ _ _ _))
        (closedOn_delay_ms _ _)
  · exact ⟨idEvents Flow.flow1 p q, by rw [h.1 hc], closedOn_idEvents _ _ _⟩

theorem call_closed (bus : Bus) (k : Call) (t : Trace) :
    ∃ new, Call.run bus k t = t ++ new ∧ closedOn k.flow new := by
  cases k with
  | initialize_0 => exact init0_closed bus t
  | initialize_1 => exact init1_closed bus t
  | read_0 a =>
    exact ⟨readEvents Flow.flow0 (a &&& 0x7F)
      (bus Flow.flow0 (t ++ readHead Flow.flow0 (a &&& 0x7F)) % 256),
      by simp only [Call.run, read0_eq], closedOn_read _ _ _⟩
  | read_1 a =>
    exact ⟨readEvents Flow.flow1 (a &&& 0x7F)
      (bus Flow.flow1 (t ++ readHead Flow.flow1 (a &&& 0x7F)) % 256),
      by simp only [Call.run, read1_eq], closedOn_read _ _ _⟩
  | write_0 a v =>
    exact ⟨writeEvents Flow.flow0 ((a ||| 0x80) % 256) v,
      by simp only [Call.run, write0_eq], closedOn_write _ _ _⟩
  | write_1 a v =>
    exact ⟨writeEvents Flow.flow1 ((a ||| 0x80) % 256) v,
      by simp only [Call.run, write1_eq], closedOn_write _ _ _⟩

theorem runCalls_append (bus : Bus) (xs ys : List Call) (t : Trace) :
    runCalls bus (xs ++ ys) t = runCalls bus ys (runCalls bus xs t) := by
  induction xs generalizing t with
  | nil => rfl
  | cons k ks ih => exact ih _

theorem runCalls_idle (bus : Bus) (cs : List Call) (t : Trace)
    (h1 : ∀ d, runChecker (chanStep d) false t = some false)
    (h2 : runChecker interStep none t = some none) :
    (∀ d, runChecker (chanStep d) false (runCalls bus cs t) = some false) ∧
      runChecker interStep none (runCalls bus cs t) = some none := by
  induction cs generalizing t with
  | nil => exact ⟨h1, h2⟩
  | cons k ks ih =>
    obtain ⟨new, e, hn⟩ := call_closed bus k t
    simp only [runCalls, e]
    apply ih
    · intro d; rw [runChecker_append, h1 d]; exact hn.1 d
    · rw [runChecker_append, h2]; exact hn.2.1

theorem alternates_rejects_double_select :
    alternates Flow.flow0
      [Event.start Flow.flow0, Event.start Flow.flow0, Event.stop Flow.flow0] = false := by
  decide

theorem alternates_rejects_unselected_transmit :
    alternates Flow.flow1 [Event.tx Flow.flow1 0x02] = false := by
  decide

theorem alternates_rejects_open_transaction :
    alternates Flow.flow0 [Event.start Flow.flow0, Event.tx Flow.flow0 0x02] = false := by
  decide

theorem noInterleave_rejects_cross_traffic :
    noInterleave
      [Event.start Flow.flow0, Event.tx Flow.flow1 0x02, Event.stop Flow.flow0] = false := by
  decide

theorem onlyOnChannel_rejects_other_channel :
    onlyOnChannel Flow.flow0 [Event.start Flow.flow0, Event.rx Flow.flow1 0] = false := by
  decide

/-- C9: for every finite sequence `cs` of driver calls (any of the six
operations, any arguments, any bus) run one after another from the empty
trace, and every further call `k`: the events that `k` adds are bus events of
the channel of `k` only; on each channel selects and deselects strictly
alternate starting with a select, with every transmit and receive inside a
select/deselect pair; and no bus event of one channel happens while the other
channel is selected. -/
theorem call_sequences_keep_bus_discipline (bus : Bus) (cs : List Call) (k : Call) :
    (∃ new, runCalls bus (cs ++ [k]) [] = runCalls bus cs [] ++ new ∧
      onlyOnChannel k.flow new = true) ∧
    (∀ c, alternates c (runCalls bus cs []) = true) ∧
    noInterleave (runCalls bus cs []) = true := by
  have h := runCalls_idle bus cs [] (fun _ => rfl) rfl
  refine ⟨?_, fun c => ?_, ?_⟩
  · obtain ⟨new, e, hn⟩ := call_closed bus k (runCalls bus cs [])
    exact ⟨new, by rw [runCalls_append]; exact e, hn.2.2⟩
  · simp [alternates, h.1 c]
  · simp [noInterleave, h.2]

/-! ## Delta assembly in the acquisition pipeline -/

theorem read0_byte (bus : Bus) (a : Nat) (ha : a < 128) (t : Trace) :
    ∃ b, b < 256 ∧ optical_tracking_read_register_pwm3360_0 bus a t =
      (b, t ++ readEvents Flow.flow0 a b) := by
  refine ⟨bus Flow.flow0 (t ++ readHead Flow.flow0 a) % 256, Nat.mod_lt _ (by decide), ?_⟩
  rw [read0_eq, and_7F_of_lt a ha]

theorem read1_byte (bus : Bus) (a : Nat) (ha : a < 128) (t : Trace) :
    ∃ b, b < 256 ∧ optical_tracking_read_register_pwm3360_1 bus a t =
      (b, t ++ readEvents Flow.flow1 a b) := by
  refine ⟨bus Flow.flow1 (t ++ readHead Flow.flow1 a) % 256, Nat.mod_lt _ (by decide), ?_⟩
  rw [read1_eq, and_7F_of_lt a ha]

theorem pattern_lt (l h : Nat) (hl : l < 256) (hh : h < 256) : (h <<< 8) ||| l < 65536 := by
  have h1 : h <<< 8 < 2 ^ 16 := by
    rw [Nat.shiftLeft_eq]
    omega
  have h2 : l < 2 ^ 16 := by omega
  exact Nat.or_lt_two_pow h1 h2

theorem toInt16_eq_twosComplement16 (w : Nat) (hw : w < 65536) :
    toInt16 w = twosComplement16 w ∧ -32768 ≤ toInt16 w ∧ toInt16 w < 32768 := by
  have hb : w.testBit 15 = decide (32768 ≤ w) := by
    rw [Nat.testBit_to_div_mod]
    have e : (2 : Nat) ^ 15 = 32768 := by norm_num
    rw [e]
    congr 1
    apply propext
    constructor <;> intro h <;> omega
  unfold toInt16 twosComplement16
  rw [hb]
  simp only [Int.ofNat_eq_coe]
  by_cases h : 32768 ≤ w
  · have h1 : ¬ (w % 65536 < 32768) := by omega
    simp only [h1, h, if_false, decide_True, if_true]
    omega
  · have h1 : w % 65536 < 32768 := by omega
    simp only [h1, h, if_true, decide_False, if_false, Bool.false_eq_true]
    omega

theorem acquire0_eq (bus : Bus) (liftMask : Nat) (t : Trace) :
    ∃ b1 b2 b3 b4 b5 b6, b2 < 256 ∧ b3 < 256 ∧ b4 < 256 ∧ b5 < 256 ∧
      acquire_sample_0 bus liftMask t =
        ({ isMotion := if b1 &&& 0x80 = 0 then 0 else 1,
           isOnSurface := if b1 &&& liftMask = 0 then 1 else 0,
           deltaA := assembleDelta b2 b3,
           deltaB := assembleDelta b4 b5,
           Squal := b6 },
         t ++ readEvents Flow.flow0 0x02 b1 ++ readEvents Flow.flow0 0x03 b2
           ++ readEvents Flow.flow0 0x04 b3 ++ readEvents Flow.flow0 0x05 b4
           ++ readEvents Flow.flow0 0x06 b5 ++ readEvents Flow.flow0 0x07 b6) := by
  obtain ⟨b1, -, d1⟩ := read0_byte bus 0x02 (by decide) t
  obtain ⟨b2, l2, d2⟩ := read0_byte bus 0x03 (by decide) (t ++ readEvents Flow.flow0 0x02 b1)
  obtain ⟨b3, l3, d3⟩ := read0_byte bus 0x04 (by decide)
    (t ++ readEvents Flow.flow0 0x02 b1 ++ readEvents Flow.flow0 0x03 b2)
  obtain ⟨b4, l4, d4⟩ := read0_byte bus 0x05 (by decide)
    (t ++ readEvents Flow.flow0 0x02 b1 ++ readEvents Flow.flow0 0x03 b2
      ++ readEvents Flow.flow0 0x04 b3)
  obtain ⟨b5, l5, d5⟩ := read0_byte bus 0x06 (by decide)
    (t ++ readEvents Flow.flow0 0x02 b1 ++ readEvents Flow.flow0 0x03 b2
      ++ readEvents Flow.flow0 0x04 b3 ++ readEvents Flow.flow0 0x05 b4)
  obtain ⟨b6, -, d6⟩ := read0_byte bus 0x07 (by decide)
    (t ++ readEvents Flow.flow0 0x02 b1 ++ readEvents Flow.flow0 0x03 b2
      ++ readEvents Flow.flow0 0x04 b3 ++ readEvents Flow.flow0 0x05 b4
      ++ readEvents Flow.flow0 0x06 b5)
  refine ⟨b1, b2, b3, b4, b5, b6, l2, l3, l4, l5, ?_⟩
  simp only [acquire_sample_0, REG_Motion, REG_Delta_X_L, REG_Delta_X_H, REG_Delta_Y_L,
    REG_Delta_Y_H, REG_SQUAL, d1, d2, d3, d4, d5, d6]

theorem acquire1_eq (bus : Bus) (liftMask : Nat) (t : Trace) :
    ∃ b1 b2 b3 b4 b5 b6, b2 < 256 ∧ b3 < 256 ∧ b4 < 256 ∧ b5 < 256 ∧
      acquire_sample_1 bus liftMask t =
        ({ isMotion := if b1 &&& 0x80 = 0 then 0 else 1,
           isOnSurface := if b1 &&& liftMask = 0 then 1 else 0,
           deltaA := assembleDelta b2 b3,
           deltaB := assembleDelta b4 b5,
           Squal := b6 },
         t ++ readEvents Flow.flow1 0x02 b1 ++ readEvents Flow.flow1 0x03 b2
           ++ readEvents Flow.flow1 0x04 b3 ++ readEvents Flow.flow1 0x05 b4
           ++ readEvents Flow.flow1 0x06 b5 ++ readEvents Flow.flow1 0x07 b6) := by
  obtain ⟨b1, -, d1⟩ := read1_byte bus 0x02 (by decide) t
  obtain ⟨b2, l2, d2⟩ := read1_byte bus 0x03 (by decide) (t ++ readEvents Flow.flow1 0x02 b1)
  obtain ⟨b3, l3, d3⟩ := read1_byte bus 0x04 (by decide)
    (t ++ readEvents Flow.flow1 0x02 b1 ++ readEvents Flow.flow1 0x03 b2)
  obtain ⟨b4, l4, d4⟩ := read1_byte bus 0x05 (by decide)
    (t ++ readEvents Flow.flow1 0x02 b1 ++ readEvents Flow.flow1 0x03 b2
      ++ readEvents Flow.flow1 0x04 b3)
  obtain ⟨b5, l5, d5⟩ := read1_byte bus 0x06 (by decide)
    (t ++ readEvents Flow.flow1 0x02 b1 ++ readEvents Flow.flow1 0x03 b2
      ++ readEvents Flow.flow1 0x04 b3 ++ readEvents Flow.flow1 0x05 b4)
  obtain ⟨b6, -, d6⟩ := read1_byte bus 0x07 (by decide)
    (t ++ readEvents Flow.flow1 0x02 b1 ++ readEvents Flow.flow1 0x03 b2
      ++ readEvents Flow.flow1 0x04 b3 ++ readEvents Flow.flow1 0x05 b4
      ++ readEvents Flow.flow1 0x06 b5)
  refine ⟨b1, b2, b3, b4, b5, b6, l2, l3, l4, l5, ?_⟩
  simp only [acquire_sample_1, REG_Motion, REG_Delta_X_L, REG_Delta_X_H, REG_Delta_Y_L,
    REG_Delta_Y_H, REG_SQUAL, d1, d2, d3, d4, d5, d6]

/-- C10: in one acquisition sample on either channel, if the Delta_X_L and
Delta_X_H reads return `xl` and `xh` and the Delta_Y_L and Delta_Y_H reads
return `yl` and `yh`, the deltas stored in the Motion record are the
two's-complement 16-bit values of `(xh <<< 8) ||| xl` and `(yh <<< 8) ||| yl`,
both within the `int16_t` range; the patterns `0x1234` and `0xFFFF` decode to
`4660` and `-1`. -/
theorem acquire_delta_is_twos_complement (bus : Bus) (liftMask : Nat) (t : Trace)
    (s xl xh yl yh sq : Nat) :
    ((acquire_sample_0 bus liftMask t).2 =
        t ++ readEvents Flow.flow0 0x02 s ++ readEvents Flow.flow0 0x03 xl
          ++ readEvents Flow.flow0 0x04 xh ++ readEvents Flow.flow0 0x05 yl
          ++ readEvents Flow.flow0 0x06 yh ++ readEvents Flow.flow0 0x07 sq →
      (acquire_sample_0 bus liftMask t).1.deltaA = twosComplement16 ((xh <<< 8) ||| xl) ∧
      (acquire_sample_0 bus liftMask t).1.deltaB = twosComplement16 ((yh <<< 8) ||| yl) ∧
      -32768 ≤ (acquire_sample_0 bus liftMask t).1.deltaA ∧
      (acquire_sample_0 bus liftMask t).1.deltaA < 32768 ∧
      -32768 ≤ (acquire_sample_0 bus liftMask t).1.deltaB ∧
      (acquire_sample_0 bus liftMask t).1.deltaB < 32768) ∧
    ((acquire_sample_1 bus liftMask t).2 =
        t ++ readEvents Flow.flow1 0x02 s ++ readEvents Flow.flow1 0x03 xl
          ++ readEvents Flow.flow1 0x04 xh ++ readEvents Flow.flow1 0x05 yl
          ++ readEvents Flow.flow1 0x06 yh ++ readEvents Flow.flow1 0x07 sq →
      (acquire_sample_1 bus liftMask t).1.deltaA = twosComplement16 ((xh <<< 8) ||| xl) ∧
      (acquire_sample_1 bus liftMask t).1.deltaB = twosComplement16 ((yh <<< 8) ||| yl) ∧
      -32768 ≤ (acquire_sample_1 bus liftMask t).1.deltaA ∧
      (acquire_sample_1 bus liftMask t).1.deltaA < 32768 ∧
      -32768 ≤ (acquire_sample_1 bus liftMask t).1.deltaB ∧
      (acquire_sample_1 bus liftMask t).1.deltaB < 32768) ∧
    assembleDelta 0x34 0x12 = 4660 ∧ assembleDelta 0xFF 0xFF = -1 := by
  refine ⟨?_, ?_, by decide, by decide⟩
  · intro h
    obtain ⟨b1, b2, b3, b4, b5, b6, l2, l3, l4, l5, e⟩ := acquire0_eq bus liftMask t
    rw [e] at h
    simp [readEvents, List.append_assoc] at h
    obtain ⟨-, rfl, rfl, rfl, rfl, -⟩ := h
    rw [e]
    have hx := toInt16_eq_twosComplement16 _ (pattern_lt b2 b3 l2 l3)
    have hy := toInt16_eq_twosComplement16 _ (pattern_lt b4 b5 l4 l5)
    exact ⟨hx.1, hy.1, hx.2.1, hx.2.2, hy.2.1, hy.2.2⟩
  · intro h
    obtain ⟨b1, b2, b3, b4, b5, b6, l2, l3, l4, l5, e⟩ := acquire1_eq bus liftMask t
    rw [e] at h
    simp [readEvents, List.append_assoc] at h
    obtain ⟨-, rfl, rfl, rfl, rfl, -⟩ := h
    rw [e]
    have hx := toInt16_eq_twosComplement16 _ (pattern_lt b2 b3 l2 l3)
    have hy := toInt16_eq_twosComplement16 _ (pattern_lt b4 b5 l4 l5)
    exact ⟨hx.1, hy.1, hx.2.1, hx.2.2, hy.2.1, hy.2.2⟩

/-- Witness for C10: a simulated bus answering status `0x80`, X bytes
`0x34, 0x12`, Y bytes `0xFF, 0xFF` and SQUAL `0x40` yields `deltaA = 4660` and
`deltaB = -1` on both channels. -/
theorem acquire_delta_is_twos_complement_witness :
    (acquire_sample_0 (scriptedBus [0x80, 0x34, 0x12, 0xFF, 0xFF, 0x40]) 0x08 []).1.deltaA
      = twosComplement16 0x1234 ∧
    (acquire_sample_0 (scriptedBus [0x80, 0x34, 0x12, 0xFF, 0xFF, 0x40]) 0x08 []).1.deltaB
      = twosComplement16 0xFFFF ∧
    (acquire_sample_1 (scriptedBus [0x80, 0x34, 0x12, 0xFF, 0xFF, 0x40]) 0x08 []).1.deltaA
      = twosComplement16 0x1234 ∧
    twosComplement16 0x1234 = 4660 ∧ twosComplement16 0xFFFF = -1 :=
  have h := acquire_delta_is_twos_complement
    (scriptedBus [0x80, 0x34, 0x12, 0xFF, 0xFF, 0x40]) 0x08 [] 0x80 0x34 0x12 0xFF 0xFF 0x40
  ⟨(h.1 rfl).1, (h.1 rfl).2.1, (h.2.1 rfl).1, by decide, by decide⟩

end VestibularH1
